import Mathlib

/-!
# Verification of the BillyBass task-driven motor sequencing engine

Shallow embedding of `src/billybass.py` (class `BillyBass`).  Python floats
are modelled as exact rationals (`ℚ`); actuator throttle assignments become
explicit `Step` records; the background thread of `threading.Thread.run`
becomes a small-step machine `bgStep` over a `Sys` state whose shared
cooperative flag is `Sys.done`; time is carried as data (the `hold` field of
a step records the sleep performed after the write).
-/

namespace BillyBass

/-- The two motor axes of the animatronic: `self.motor["body"]` (`kit.motor1`)
and `self.motor["mouth"]` (`kit.motor2`). -/
inductive Axis where
  | body
  | mouth
deriving DecidableEq, Repr

/-- One actuator command, as issued by the sequencing engine: the assignment
`motor.throttle = value` on `axis`, followed by a blocking sleep of `hold`
seconds (`release_motor(sensitivity)`).  Writes with no sleep after them
(the forced final write of `greet`, and the writes of `reset_motors`) carry
`hold = 0`. -/
structure Step where
  axis : Axis
  value : ℚ
  hold : ℚ
deriving DecidableEq, Repr

/-- `run_motor(self, motor, sensitivity, steps)` (lines 251-261): for each
entry of `steps`, set the motor throttle to it and sleep `sensitivity`
seconds. -/
def run_motor (axis : Axis) (sensitivity : ℚ) (steps : List ℚ) : List Step :=
  steps.map fun s => ⟨axis, s, sensitivity⟩

/-- The step-list construction loop of `greet` (lines 181-185):
`i = 1.0; while i != -1.0: i -= .2; steps.append(i)`.
The loop condition is tested first; the running value is decremented and then
appended.  Fuel makes potential non-termination explicit: `none` means the
fuel ran out with the loop still running, `some acc` means the loop exited
through its condition with accumulated list `acc`. -/
def greetLoop : Nat → ℚ → List ℚ → Option (List ℚ)
  | 0, _, _ => none
  | fuel+1, i, acc =>
      if i = -1 then some acc
      else greetLoop fuel (i - 1/5) (acc ++ [i - 1/5])

/-- The `steps` list that `greet` passes to `run_motor` (fuel 11 suffices;
see `greetLoop_ge`). -/
def greetSteps : List ℚ := (greetLoop 11 1 []).getD []

/-- `greet` (lines 175-188): run the constructed sweep on the mouth motor
with sensitivity 0.05, then force `self.motor["mouth"].throttle = 0`
(no sleep after the forced write). -/
def greet : List Step := run_motor .mouth (1/20) greetSteps ++ [⟨.mouth, 0, 0⟩]

/-- `move_mouth` (lines 206-211): mouth motor, sensitivity 0.1,
steps `[1, -1.0, 0.0]`. -/
def move_mouth : List Step := run_motor .mouth (1/10) [1, -1, 0]

/-- `move_head` (lines 213-218): body motor, sensitivity 1.0,
steps `[0.0, -1.0]`. -/
def move_head : List Step := run_motor .body 1 [0, -1]

/-- `move_tail` (lines 220-225): body motor, sensitivity 1.0,
steps `[0.0, 1.0, 0.0]`. -/
def move_tail : List Step := run_motor .body 1 [0, 1, 0]

/-- `trigger` (lines 155-162): `move_head()` then `move_mouth()`. -/
def trigger : List Step := move_head ++ move_mouth

/-- `response` (lines 164-173): `move_mouth()` only. -/
def response : List Step := move_mouth

/-- `dance` (lines 190-204): `move_head()`, `time.sleep(1)`, `move_tail()`.
The bare sleep between the two programs issues no actuator write, so it
contributes no step to the write trace. -/
def dance : List Step := move_head ++ move_tail

/-- `reset_motors` (lines 263-270): iterate over the motor dictionary
(insertion order: body, then mouth) setting each throttle to 0.0; no sleeps. -/
def reset_motors : List Step := [⟨.body, 0, 0⟩, ⟨.mouth, 0, 0⟩]

/-- The eight methods a task can resolve to in `__enter__` (lines 96-111). -/
inductive Action where
  | greet
  | move_head
  | move_tail
  | move_mouth
  | trigger
  | response
  | dance
  | reset_motors
deriving DecidableEq, Repr

/-- The actuator write trace of one invocation of a resolved action. -/
def actionTrace : Action → List Step
  | .greet => greet
  | .move_head => move_head
  | .move_tail => move_tail
  | .move_mouth => move_mouth
  | .trigger => trigger
  | .response => response
  | .dance => dance
  | .reset_motors => reset_motors

/-- The closed enumeration of task names accepted by `__enter__`. -/
def validTasks : List String :=
  ["greet", "move_head", "move_tail", "move_mouth", "trigger", "response",
   "dance", "reset"]

/-- What `__enter__` did: which method was bound to `self.exec`, whether the
`ValueError` was raised, whether `self.start()` was reached (spawning the
background thread), and which actuator writes `__enter__` itself performed. -/
structure EnterResult where
  exec : Option Action
  raised : Option String
  threadStarted : Bool
  writes : List Step
deriving DecidableEq, Repr

/-- `__enter__` (lines 83-117): the identity-comparison chain on `self.task`.
A match binds the corresponding method to `self.exec` and falls through to
`self.start()`; no match raises `ValueError("Task does not exist for billy
bass")` before `start()` is reached.  `__enter__` performs no actuator write
itself on any path. -/
def billy_enter (task : String) : EnterResult :=
  if task = "greet" then ⟨some Action.greet, none, true, []⟩
  else if task = "move_head" then ⟨some Action.move_head, none, true, []⟩
  else if task = "move_tail" then ⟨some Action.move_tail, none, true, []⟩
  else if task = "move_mouth" then ⟨some Action.move_mouth, none, true, []⟩
  else if task = "trigger" then ⟨some Action.trigger, none, true, []⟩
  else if task = "response" then ⟨some Action.response, none, true, []⟩
  else if task = "dance" then ⟨some Action.dance, none, true, []⟩
  else if task = "reset" then ⟨some Action.reset_motors, none, true, []⟩
  else ⟨none, some ("Task does not exist for billy bass"), false, []⟩

/-- The object state set up by `__init__` (lines 64-81): the task string is
stored verbatim and `self.done = False`.  The body contains no comparison of
`task` against the task table and no raise statement. -/
structure Runner where
  task : String
  done : Bool
deriving DecidableEq, Repr

/-- `__init__(self, task)`: store the task and initialise the stop flag. -/
def billy_init (task : String) : Runner := ⟨task, false⟩

/-- The actuator writes issued by `run` (lines 227-240) when the loop
condition `not self.done` is observed true `k` times before the stop flag is
seen: `k` complete invocations of the resolved action. -/
def runWrites (a : Action) : Nat → List Step
  | 0 => []
  | k+1 => actionTrace a ++ runWrites a k

/-- Control position of the background thread executing `run`:
about to test `not self.done`; inside `self.exec()` with the given writes
still pending; or exited. -/
inductive Phase where
  | check
  | act (pending : List Step)
  | terminated
deriving DecidableEq, Repr

/-- Shared state of one runner: the cooperative stop flag `self.done`, the
thread's control position, and the actuator writes issued so far. -/
structure Sys where
  done : Bool
  phase : Phase
  trace : List Step
deriving DecidableEq, Repr

/-- One small step of the background thread (`run`, lines 227-240): at
`check` it evaluates `not self.done` and either exits or begins one complete
invocation of the action; inside an invocation it issues the next pending
write (with its hold); an exhausted invocation (after `time.sleep(.2)`)
returns to `check`; `terminated` is absorbing. -/
def bgStep (a : Action) (s : Sys) : Sys :=
  match s.phase with
  | .check => if s.done then { s with phase := .terminated }
              else { s with phase := .act (actionTrace a) }
  | .act [] => { s with phase := .check }
  | .act (w :: ws) => { s with phase := .act ws, trace := s.trace ++ [w] }
  | .terminated => s

/-- `stop` (lines 242-249), also called by `__exit__` (lines 121-125): set
`self.done = True` and return immediately.  There is no `join()` and no wait
on the thread's state. -/
def stop (s : Sys) : Sys := { s with done := true }

/-- Number of background steps after which a thread whose stop flag is set
has certainly exited: one flag check, preceded when mid-invocation by the
pending writes and the return to the loop head. -/
def drainBound : Phase → Nat
  | .check => 1
  | .act pending => pending.length + 2
  | .terminated => 0

/-- Outcome of the background thread body `run` (lines 227-240): the writes
successfully commanded, the diagnostics emitted by the `except` block
(`logger.error(str(e))`), and the exception re-raised by `raise` (`none`
when the loop exited normally through the stop flag). -/
structure RunResult where
  trace : List Step
  diag : List String
  raised : Option String
deriving Repr

/-- Execute the pending writes of one action invocation under a fault oracle:
`oracle n = some msg` means the `n`-th throttle assignment of this run raises
an exception (the throttle is then not set).  Returns the next write index,
the extended trace, and the exception if one was raised. -/
def execSteps (oracle : Nat → Option String) :
    List Step → Nat → List Step → Nat × List Step × Option String
  | [], n, tr => (n, tr, none)
  | w :: ws, n, tr =>
      match oracle n with
      | some msg => (n, tr, some msg)
      | none => execSteps oracle ws (n+1) (tr ++ [w])

/-- The loop of `run` with its `try/except`: `k` is the number of times the
loop condition is observed true; an exception from an invocation is logged
as a diagnostic and re-raised, ending the thread with no further writes. -/
def runF (oracle : Nat → Option String) (a : Action) :
    Nat → Nat → List Step → RunResult
  | 0, _, tr => ⟨tr, [], none⟩
  | k+1, n, tr =>
      match execSteps oracle (actionTrace a) n tr with
      | (n', tr', none) => runF oracle a k n' tr'
      | (_, tr', some msg) => ⟨tr', [msg], some msg⟩

/-- A fault oracle with exactly one failing write, at index `j`. -/
def faultOracle (j : Nat) (msg : String) : Nat → Option String :=
  fun m => if m = j then some msg else none

/-! ## Evaluation lemmas -/

/-- The greet construction loop, run with fuel 11, exits through its loop
condition after exactly ten iterations. -/
theorem greetLoop_eval : greetLoop 11 1 [] =
    some [4/5, 3/5, 2/5, 1/5, 0, -(1/5), -(2/5), -(3/5), -(4/5), -1] := by
  norm_num [greetLoop]

/-- The `steps` list of `greet`, evaluated. -/
theorem greetSteps_eq :
    greetSteps = [4/5, 3/5, 2/5, 1/5, 0, -(1/5), -(2/5), -(3/5), -(4/5), -1] := by
  rw [greetSteps, greetLoop_eval]
  rfl

/-- Adding fuel does not change a loop run that already exited through its
condition. -/
theorem greetLoop_succ (fuel : Nat) :
    ∀ (i : ℚ) (acc r : List ℚ), greetLoop fuel i acc = some r →
      greetLoop (fuel+1) i acc = some r := by
  induction fuel with
  | zero => intro i acc r h; simp [greetLoop] at h
  | succ n ih =>
      intro i acc r h
      rw [greetLoop] at h ⊢
      by_cases hi : i = -1
      · rwa [if_pos hi] at h ⊢
      · rw [if_neg hi] at h ⊢
        exact ih _ _ _ h

/-- Any fuel of at least 11 makes the greet construction loop exit through
its loop condition, with the same resulting list. -/
theorem greetLoop_ge (fuel : Nat) (h : 11 ≤ fuel) :
    greetLoop fuel 1 [] = some greetSteps := by
  induction fuel, h using Nat.le_induction with
  | base => rw [greetLoop_eval, greetSteps_eq]
  | succ n _ ih => exact greetLoop_succ n 1 [] greetSteps ih

/-- The full write trace of one `greet` invocation, evaluated. -/
theorem greet_eval :
    greet = [⟨.mouth, 4/5, 1/20⟩, ⟨.mouth, 3/5, 1/20⟩, ⟨.mouth, 2/5, 1/20⟩,
      ⟨.mouth, 1/5, 1/20⟩, ⟨.mouth, 0, 1/20⟩, ⟨.mouth, -(1/5), 1/20⟩,
      ⟨.mouth, -(2/5), 1/20⟩, ⟨.mouth, -(3/5), 1/20⟩, ⟨.mouth, -(4/5), 1/20⟩,
      ⟨.mouth, -1, 1/20⟩, ⟨.mouth, 0, 0⟩] := by
  rw [greet, greetSteps_eq]
  rfl

/-! ## C1 — the `greet` throttle sequence -/

/-- C1 counterexample: the commanded MOUTH throttle sequence of one `greet`
iteration is not the claimed ten values `[1.0, 0.8, 0.6, 0.4, 0.2, 0.0,
-0.2, -0.4, -0.6, -0.8]` followed by the forced 0: the loop decrements the
running value before appending it, so the first commanded value is 0.8 and
the value -1.0 is commanded as the tenth step. -/
theorem greet_claimed_sequence_false :
    greet.map (fun w => w.value) ≠
      [1, 4/5, 3/5, 2/5, 1/5, 0, -(1/5), -(2/5), -(3/5), -(4/5), 0] := by
  rw [greet_eval]
  simp only [List.map_cons, List.map_nil, ne_eq, List.cons.injEq, not_and]
  intro h
  norm_num at h

/-- C1 amended: modelling the float arithmetic exactly, the commanded MOUTH
throttle sequence of one `greet` action iteration is the ten values
`[0.8, 0.6, 0.4, 0.2, 0.0, -0.2, -0.4, -0.6, -0.8, -1.0]` (the running value
is decremented by 0.2 from 1.0 before each emission, stopping once it equals
-1.0), each held 0.05s ≥ 0.05s, followed by a forced final MOUTH throttle of
0 with no hold. -/
theorem greet_sequence_amended :
    greet = [⟨.mouth, 4/5, 1/20⟩, ⟨.mouth, 3/5, 1/20⟩, ⟨.mouth, 2/5, 1/20⟩,
      ⟨.mouth, 1/5, 1/20⟩, ⟨.mouth, 0, 1/20⟩, ⟨.mouth, -(1/5), 1/20⟩,
      ⟨.mouth, -(2/5), 1/20⟩, ⟨.mouth, -(3/5), 1/20⟩, ⟨.mouth, -(4/5), 1/20⟩,
      ⟨.mouth, -1, 1/20⟩, ⟨.mouth, 0, 0⟩] ∧
    (greet.take 10).all (fun w => decide ((1:ℚ)/20 ≤ w.hold)) = true := by
  refine ⟨greet_eval, ?_⟩
  rw [greet_eval]
  norm_num

/-! ## C2 — termination of the resolved actions -/

/-- C2: for every valid task, one invocation of the resolved action is a
finite sequence of actuator writes (at most 11), and in particular the
step-list construction loop of `greet` terminates: with any fuel of at least
11 it exits through its loop condition, always producing the same finite
ten-element list. -/
theorem valid_action_terminates (t : String) (a : Action)
    (h : (billy_enter t).exec = some a) :
    (∀ fuel, 11 ≤ fuel → greetLoop fuel 1 [] = some greetSteps) ∧
    (actionTrace a).length ≤ 11 := by
  refine ⟨fun fuel hf => greetLoop_ge fuel hf, ?_⟩
  clear h
  cases a <;>
    simp [actionTrace, greet, move_head, move_tail, move_mouth, trigger,
      response, dance, reset_motors, run_motor, greetSteps_eq]

/-- Witness for C2 at the task `greet` with fuel 11. -/
theorem valid_action_terminates_witness :
    greetLoop 11 1 [] = some greetSteps ∧
    (actionTrace Action.greet).length ≤ 11 :=
  ⟨(valid_action_terminates ("greet") Action.greet (by decide)).1 11 (by decide),
   (valid_action_terminates ("greet") Action.greet (by decide)).2⟩

/-! ## C4 — the `reset` task -/

/-- C4 counterexample: a `reset` runner whose loop condition is observed
true twice issues four throttle writes (two per axis), not exactly one step
per axis: `run` repeats `reset_motors` like any other action. -/
theorem reset_single_step_false :
    (runWrites Action.reset_motors 2).length = 4 ∧
    runWrites Action.reset_motors 2 ≠
      [⟨Axis.body, 0, 0⟩, ⟨Axis.mouth, 0, 0⟩] := by
  constructor
  · rfl
  · intro h
    have := congrArg List.length h
    simp [runWrites, actionTrace, reset_motors] at this

/-- C4 amended: each single invocation of `reset_motors` issues exactly one
throttle step per axis, setting both axes to 0.0 (body first, then mouth,
matching dictionary insertion order); but the runner repeats the action like
any other task, issuing those two writes once per loop iteration until the
stop flag is observed. -/
theorem reset_amended (k : Nat) :
    actionTrace Action.reset_motors = [⟨Axis.body, 0, 0⟩, ⟨Axis.mouth, 0, 0⟩] ∧
    runWrites Action.reset_motors k =
      (List.replicate k [(⟨Axis.body, 0, 0⟩ : Step), ⟨Axis.mouth, 0, 0⟩]).flatten := by
  refine ⟨rfl, ?_⟩
  induction k with
  | zero => rfl
  | succ n ih =>
      rw [List.replicate_succ, List.flatten_cons, ← ih]
      rfl

/-! ## C3 and C10 — validation happens at `__enter__`, not `__init__` -/

/-- The comparison chain of `__enter__`, characterised over all strings:
a string outside the closed enumeration falls through every branch to the
raise statement before `self.start()` is reached; a member binds its method
and reaches `self.start()` without raising. -/
theorem billy_enter_spec (s : String) :
    (s ∉ validTasks →
      billy_enter s = ⟨none, some ("Task does not exist for billy bass"), false, []⟩) ∧
    (s ∈ validTasks → ∃ a, billy_enter s = ⟨some a, none, true, []⟩) := by
  constructor
  · intro h
    simp only [validTasks, List.mem_cons, List.not_mem_nil, or_false, not_or] at h
    obtain ⟨h1, h2, h3, h4, h5, h6, h7, h8⟩ := h
    simp [billy_enter, h1, h2, h3, h4, h5, h6, h7, h8]
  · intro h
    simp only [validTasks, List.mem_cons, List.not_mem_nil, or_false] at h
    rcases h with rfl | rfl | rfl | rfl | rfl | rfl | rfl | rfl
    · exact ⟨Action.greet, by decide⟩
    · exact ⟨Action.move_head, by decide⟩
    · exact ⟨Action.move_tail, by decide⟩
    · exact ⟨Action.move_mouth, by decide⟩
    · exact ⟨Action.trigger, by decide⟩
    · exact ⟨Action.response, by decide⟩
    · exact ⟨Action.dance, by decide⟩
    · exact ⟨Action.reset_motors, by decide⟩

/-- C3: for every task string not in the closed enumeration, `__enter__`
raises the invalid-task `ValueError` synchronously: `self.exec` is never
bound, `self.start()` is never reached (no background thread), and no
actuator write occurs; for every member of the enumeration, `__enter__` does
not raise and reaches `self.start()` having performed no actuator write. -/
theorem invalid_task_rejected_at_enter (s : String) :
    (s ∉ validTasks →
      billy_enter s = ⟨none, some ("Task does not exist for billy bass"), false, []⟩) ∧
    (s ∈ validTasks →
      (billy_enter s).raised = none ∧ (billy_enter s).threadStarted = true ∧
      (billy_enter s).writes = []) := by
  refine ⟨(billy_enter_spec s).1, fun h => ?_⟩
  obtain ⟨a, ha⟩ := (billy_enter_spec s).2 h
  rw [ha]
  exact ⟨rfl, rfl, rfl⟩

/-- Witness for C3 at the invalid string "feed" and the valid string
"greet". -/
theorem invalid_task_rejected_at_enter_witness :
    billy_enter ("feed") = ⟨none, some ("Task does not exist for billy bass"), false, []⟩ ∧
    (billy_enter ("greet")).raised = none ∧
    (billy_enter ("greet")).threadStarted = true :=
  ⟨(invalid_task_rejected_at_enter ("feed")).1 (by decide),
   ((invalid_task_rejected_at_enter ("greet")).2 (by decide)).1,
   ((invalid_task_rejected_at_enter ("greet")).2 (by decide)).2.1⟩

/-- C10: constructing a runner never validates the task: for every task
string, valid or invalid, `__init__` returns normally, storing the task
verbatim with the stop flag clear; the invalid-task error is raised exactly
when activation (`__enter__`) is given a string outside the enumeration. -/
theorem init_never_validates (s : String) :
    billy_init s = ⟨s, false⟩ ∧
    ((billy_enter s).raised = none ↔ s ∈ validTasks) := by
  refine ⟨rfl, ?_, fun h => ?_⟩
  · intro h
    by_contra hmem
    rw [(billy_enter_spec s).1 hmem] at h
    simp at h
  · obtain ⟨a, ha⟩ := (billy_enter_spec s).2 h
    rw [ha]

/-- Witness for C10 at the invalid string "feed". -/
theorem init_never_validates_witness :
    billy_init ("feed") = ⟨("feed"), false⟩ ∧
    ((billy_enter ("feed")).raised = none ↔ ("feed") ∈ validTasks) :=
  init_never_validates ("feed")

/-! ## C6 — throttle range invariant -/

/-- Every write of a single action invocation has its throttle value in
`[-1, 1]`. -/
theorem actionTrace_in_range (a : Action) :
    ∀ w ∈ actionTrace a, -1 ≤ w.value ∧ w.value ≤ 1 := by
  cases a <;>
    simp [actionTrace, greet, move_head, move_tail, move_mouth, trigger,
      response, dance, reset_motors, run_motor, greetSteps_eq,
      List.forall_mem_cons] <;>
    norm_num

/-- C6: for every valid task and every point in execution, every throttle
value written to an axis lies in the closed range `[-1, 1]`: the sequencing
engine never emits an out-of-range value, over any number of loop
iterations. -/
theorem throttle_in_range (a : Action) (k : Nat) (w : Step)
    (hw : w ∈ runWrites a k) : -1 ≤ w.value ∧ w.value ≤ 1 := by
  revert hw
  induction k with
  | zero => intro hw; simp [runWrites] at hw
  | succ n ih =>
      intro hw
      rw [runWrites] at hw
      rcases List.mem_append.mp hw with h | h
      · exact actionTrace_in_range a w h
      · exact ih h

/-- Witness for C6: the first write of a `move_head` iteration. -/
theorem throttle_in_range_witness :
    -1 ≤ (Step.mk Axis.body 0 1).value ∧ (Step.mk Axis.body 0 1).value ≤ 1 :=
  throttle_in_range Action.move_head 1 (Step.mk Axis.body 0 1)
    (by simp [runWrites, actionTrace, move_head, run_motor])

/-! ## The background thread after the stop flag is set -/

/-- A thread that is mid-invocation with its stop flag set issues exactly
its pending writes, returns to the loop head, observes the flag and exits. -/
theorem bg_drain (a : Action) (ws : List Step) :
    ∀ tr : List Step,
      (bgStep a)^[ws.length + 2] ⟨true, .act ws, tr⟩ = ⟨true, .terminated, tr ++ ws⟩ := by
  induction ws with
  | nil =>
      intro tr
      rw [List.append_nil]
      rfl
  | cons w ws ih =>
      intro tr
      have hlen : (w :: ws).length + 2 = (ws.length + 2) + 1 := by
        simp only [List.length_cons]
      rw [hlen, Function.iterate_succ_apply]
      have hstep : bgStep a ⟨true, .act (w :: ws), tr⟩ = ⟨true, .act ws, tr ++ [w]⟩ := rfl
      rw [hstep, ih (tr ++ [w]), List.append_assoc, List.singleton_append]

/-! ## C7 — cooperative cancellation -/

/-- C7: cancellation is cooperative and observed only at the loop head, once
per full action iteration: if the stop flag is set while an invocation has
writes `ws` still pending, the thread issues exactly those pending writes
(each with its hold — no step is truncated), performs no further iteration,
and reaches the absorbing `terminated` phase, after which no step changes
the state, so no further actuator command is ever issued. -/
theorem cooperative_cancellation (a : Action) (s : Sys) (ws : List Step)
    (hdone : s.done = true) (hphase : s.phase = .act ws) :
    ((bgStep a)^[ws.length + 2] s).phase = .terminated ∧
    ((bgStep a)^[ws.length + 2] s).trace = s.trace ++ ws ∧
    bgStep a ((bgStep a)^[ws.length + 2] s) = (bgStep a)^[ws.length + 2] s := by
  obtain ⟨d, p, tr⟩ := s
  have hd : d = true := hdone
  have hp : p = Phase.act ws := hphase
  subst hd
  subst hp
  rw [bg_drain a ws tr]
  exact ⟨rfl, rfl, rfl⟩

/-- Witness for C7: a `move_mouth` runner stopped mid-invocation with all
three writes still pending. -/
theorem cooperative_cancellation_witness :
    ((bgStep Action.move_mouth)^[(actionTrace Action.move_mouth).length + 2]
        ⟨true, .act (actionTrace Action.move_mouth), []⟩).phase = Phase.terminated ∧
    ((bgStep Action.move_mouth)^[(actionTrace Action.move_mouth).length + 2]
        ⟨true, .act (actionTrace Action.move_mouth), []⟩).trace =
      ([] : List Step) ++ actionTrace Action.move_mouth ∧
    bgStep Action.move_mouth
        ((bgStep Action.move_mouth)^[(actionTrace Action.move_mouth).length + 2]
          ⟨true, .act (actionTrace Action.move_mouth), []⟩) =
      (bgStep Action.move_mouth)^[(actionTrace Action.move_mouth).length + 2]
        ⟨true, .act (actionTrace Action.move_mouth), []⟩ :=
  cooperative_cancellation Action.move_mouth
    ⟨true, .act (actionTrace Action.move_mouth), []⟩
    (actionTrace Action.move_mouth) rfl rfl

/-! ## C5 — what scope exit / `stop` actually does -/

/-- C5 counterexample: `stop` does not block until the thread has exited.
Started on `move_head` and stopped just after the thread begins its first
invocation, `stop` has returned while the thread is still mid-invocation
(not `terminated`), and the thread subsequently issues a further actuator
write (BODY throttle 0.0, held 1s) after `stop` has returned. -/
theorem stop_joins_false :
    (stop (bgStep Action.move_head ⟨false, .check, []⟩)).phase ≠ Phase.terminated ∧
    (bgStep Action.move_head
        (stop (bgStep Action.move_head ⟨false, .check, []⟩))).trace =
      [⟨Axis.body, 0, 1⟩] := by
  constructor
  · intro h
    simp [bgStep, stop, actionTrace, move_head, run_motor] at h
  · rfl

/-- C5 amended: scope exit (and the equivalent `stop` call) signals
termination by setting the cooperative stop flag and returns immediately —
it does not join and the thread may still be running when it returns; the
background unit then exits on its own within a bounded number of its steps
(finishing the in-progress invocation and re-checking the flag). -/
theorem stop_sets_flag_amended (a : Action) (s : Sys) :
    (stop s).done = true ∧ (stop s).phase = s.phase ∧ (stop s).trace = s.trace ∧
    ((bgStep a)^[drainBound s.phase] (stop s)).phase = Phase.terminated := by
  refine ⟨rfl, rfl, rfl, ?_⟩
  obtain ⟨d, p, tr⟩ := s
  cases p with
  | check => rfl
  | act ws =>
      show ((bgStep a)^[ws.length + 2] (⟨true, .act ws, tr⟩ : Sys)).phase = Phase.terminated
      rw [bg_drain a ws tr]
  | terminated => rfl

/-! ## C9 — idempotence of `stop` -/

/-- C9: calling `stop` on a runner that has already stopped (stop flag set,
thread terminated) is a no-op: `stop` is a total assignment that cannot
raise, the state is unchanged, and the stop flag remains set. -/
theorem stop_idempotent (s : Sys) (hdone : s.done = true)
    (hterm : s.phase = Phase.terminated) :
    stop s = s ∧ (stop s).done = true ∧ (stop s).phase = Phase.terminated := by
  obtain ⟨d, p, tr⟩ := s
  have hd : d = true := hdone
  subst hd
  exact ⟨rfl, rfl, hterm⟩

/-- Witness for C9 at a concrete terminated state. -/
theorem stop_idempotent_witness :
    stop ⟨true, Phase.terminated, []⟩ = ⟨true, Phase.terminated, []⟩ ∧
    (stop ⟨true, Phase.terminated, []⟩).done = true ∧
    (stop ⟨true, Phase.terminated, []⟩).phase = Phase.terminated :=
  stop_idempotent ⟨true, Phase.terminated, []⟩ rfl rfl

/-! ## C8 — error propagation out of the background unit -/

/-- Running one invocation under a single-fault oracle: the writes before
the faulting index are commanded, the faulting assignment raises without
setting the throttle, and nothing after it is attempted. -/
theorem execSteps_fault (j : Nat) (msg : String) :
    ∀ (ws : List Step) (n : Nat) (tr : List Step), n ≤ j → j - n < ws.length →
      execSteps (faultOracle j msg) ws n tr =
        (j, tr ++ ws.take (j - n), some msg) := by
  intro ws
  induction ws with
  | nil =>
      intro n tr _ h2
      simp at h2
  | cons w ws ih =>
      intro n tr h1 h2
      by_cases hn : n = j
      · subst hn
        simp [execSteps, faultOracle]
      · have h1a : n + 1 ≤ j := by omega
        have h2a : j - (n + 1) < ws.length := by
          simp only [List.length_cons] at h2
          omega
        have hstep : execSteps (faultOracle j msg) (w :: ws) n tr =
            execSteps (faultOracle j msg) ws (n + 1) (tr ++ [w]) := by
          simp [execSteps, faultOracle, hn]
        rw [hstep, ih (n + 1) (tr ++ [w]) h1a h2a]
        have hjn : j - n = (j - (n + 1)) + 1 := by omega
        rw [hjn, List.take_succ_cons]
        simp

/-- C8: an exception raised while executing an action in the background unit
(here: the `j`-th throttle assignment of the first invocation failing) is
logged as a diagnostic event and then re-raised — never discarded; the
faulting write is not retried, the loop performs no further iterations
regardless of how many were scheduled, and the trace ends at the writes
successfully commanded before the fault, with no corrective write added. -/
theorem fault_reported_and_reraised (a : Action) (j k : Nat) (msg : String)
    (hj : j < (actionTrace a).length) :
    runF (faultOracle j msg) a (k+1) 0 [] =
      ⟨(actionTrace a).take j, [msg], some msg⟩ := by
  have h := execSteps_fault j msg (actionTrace a) 0 [] (Nat.zero_le j)
    (by simpa using hj)
  simp only [Nat.sub_zero, List.nil_append] at h
  rw [runF, h]

/-- Witness for C8: the second write of a `move_mouth` invocation fails. -/
theorem fault_reported_and_reraised_witness :
    runF (faultOracle 1 ("actuator unreachable")) Action.move_mouth 4 0 [] =
      ⟨(actionTrace Action.move_mouth).take 1, [("actuator unreachable")],
       some ("actuator unreachable")⟩ :=
  fault_reported_and_reraised Action.move_mouth 1 3 ("actuator unreachable")
    (by simp [actionTrace, move_mouth, run_motor])

end BillyBass
